import Mathlib

/-!
Shallow embedding of the simulation core of ld51 (src/src/main.rs), a small
Bevy 0.8 game: per-frame ball physics with ground bounce and bat collision,
a fixed-step swing tracker per bat collision point, a smoothed bat
controller, a two-state pause machine with a timer, and a fixed-cadence
ball spawner.  f32 arithmetic is idealised as exact real arithmetic.

Scheduler model (Bevy 0.8 semantics of the registrations in main):
* physics and update_bat_transform are registered under
  SystemSet::on_update(AppState::InGame) with no further run criteria, so
  they execute only while the state is InGame (the source comments this
  set with "physics should only run when not paused").
* throw_ball is registered under on_update(AppState::InGame), but the
  subsequent with_run_criteria(FixedTimestep::step(1.0)) call replaces the
  state-based run criterion of the set, so throw_ball is driven by the
  1-second fixed timestep alone and runs in either state.
* update_collider_historic_velocity runs on a 1/60 s fixed timestep,
  independent of state.
* update_pause_timer and camera_shake run under on_update(AppState::HitPause);
  start_pause_timer and play_hit_sound run on entry into HitPause.
A frame is modelled by frameStep below via the looping state driver that
Bevy 0.8 uses to implement states: a transition scheduled during a frame is
processed within that same frame - the old state's exit systems run (none
exist here), the new state's enter systems run (start_pause_timer on
entering HitPause), and then the NEW state's on_update systems run in the
remainder of the same frame, looping on further transitions.  So a HitPause
entry frame also runs update_pause_timer after start_pause_timer, and a
HitPause frame whose timer expires mid-frame runs physics and
update_bat_transform afterwards in that same frame.  ECS query iteration
over the seven bat collision points is modelled as a list of colliders in
their spawn order, which coincides with their BatCollider index order 0..6
(the index component itself is never read by physics).  Camera shake and
the hit sound touch no state the claims mention and are left out.
-/

noncomputable section

namespace LD51

/-- Three-component vector of reals, modelling glam Vec3 with f32 fields
idealised as reals. -/
@[ext]
structure Vec3 where
  x : ℝ
  y : ℝ
  z : ℝ

/-- Componentwise vector addition. -/
def Vec3.add (a b : Vec3) : Vec3 := ⟨a.x + b.x, a.y + b.y, a.z + b.z⟩

/-- Componentwise vector subtraction. -/
def Vec3.sub (a b : Vec3) : Vec3 := ⟨a.x - b.x, a.y - b.y, a.z - b.z⟩

/-- Componentwise vector negation. -/
def Vec3.neg (a : Vec3) : Vec3 := ⟨-a.x, -a.y, -a.z⟩

/-- Vec3 * f32: componentwise scaling by a scalar on the right, as in the
source's velocity.0 * time.delta_seconds() etc. -/
def Vec3.smul (a : Vec3) (s : ℝ) : Vec3 := ⟨a.x * s, a.y * s, a.z * s⟩

/-- Vec3::length: square root of the dot product with itself. -/
def Vec3.length (a : Vec3) : ℝ := Real.sqrt (a.x * a.x + a.y * a.y + a.z * a.z)

/-- Vec3::distance(a, b) = (a - b).length(). -/
def Vec3.dist (a b : Vec3) : ℝ := Vec3.length (Vec3.sub a b)

/-- Quaternion as four reals, modelling glam Quat; the source only ever
scales, adds and multiplies quaternions componentwise/Hamilton-wise. -/
@[ext]
structure Quat where
  x : ℝ
  y : ℝ
  z : ℝ
  w : ℝ

/-- Quat * f32 componentwise scaling. -/
def Quat.scale (q : Quat) (s : ℝ) : Quat := ⟨q.x * s, q.y * s, q.z * s, q.w * s⟩

/-- Componentwise quaternion addition. -/
def Quat.add (a b : Quat) : Quat := ⟨a.x + b.x, a.y + b.y, a.z + b.z, a.w + b.w⟩

/-- Hamilton product, as glam Quat multiplication. -/
def Quat.mul (a b : Quat) : Quat :=
  ⟨a.w * b.x + a.x * b.w + a.y * b.z - a.z * b.y,
   a.w * b.y - a.x * b.z + a.y * b.w + a.z * b.x,
   a.w * b.z + a.x * b.y - a.y * b.x + a.z * b.w,
   a.w * b.w - a.x * b.x - a.y * b.y - a.z * b.z⟩

/-- Rotation about the x axis by angle a, as a quaternion. -/
def Quat.fromRotX (a : ℝ) : Quat := ⟨Real.sin (a / 2), 0, 0, Real.cos (a / 2)⟩

/-- Rotation about the y axis by angle a, as a quaternion. -/
def Quat.fromRotY (a : ℝ) : Quat := ⟨0, Real.sin (a / 2), 0, Real.cos (a / 2)⟩

/-- Rotation about the z axis by angle a, as a quaternion. -/
def Quat.fromRotZ (a : ℝ) : Quat := ⟨0, 0, Real.sin (a / 2), Real.cos (a / 2)⟩

/-- Quat::from_euler(EulerRot::XYZ, a, b, c): intrinsic x-then-y-then-z
composition of the three axis rotations. -/
def Quat.fromEulerXYZ (a b c : ℝ) : Quat :=
  (Quat.fromRotX a).mul ((Quat.fromRotY b).mul (Quat.fromRotZ c))

/-- BallStatus from the source: Thrown until first bat contact, then Hit. -/
inductive BallStatus where
  | Thrown
  | Hit
deriving DecidableEq

/-- AppState from the source: InGame is the spec's Active state, HitPause is
the spec's Impact state. -/
inductive AppState where
  | InGame
  | HitPause
deriving DecidableEq

/-- A ball entity: Transform translation, Velocity, Size (the radius) and
Status components of the BallBundle. -/
structure Ball where
  translation : Vec3
  velocity : Vec3
  size : ℝ
  status : BallStatus

/-- HistoricVelocity component (the SwingTracker state) attached to each bat
collision point. -/
structure HistoricVelocity where
  previous_pos : Vec3
  decaying_vel : Vec3

/-- What the physics system reads from one bat collision point: its current
GlobalTransform translation and its HistoricVelocity decaying velocity.  The
list of colliders handed to physics is in BatCollider spawn/index order. -/
structure Collider where
  pos : Vec3
  decaying_vel : Vec3

/-- PAUSE_TIME constant from the source. -/
def PAUSE_TIME : ℝ := 0.7

/-- update_pause_timer: decrement the timer by the frame delta and go back to
InGame exactly when the decremented timer is negative (it runs only while in
HitPause, so the non-transition result state is HitPause). -/
def update_pause_timer (dt timer : ℝ) : ℝ × AppState :=
  let t := timer - dt
  (t, if t < 0 then AppState.InGame else AppState.HitPause)

/-- start_pause_timer: the timer value installed on entry into HitPause. -/
def start_pause_timer : ℝ := PAUSE_TIME

/-- update_collider_historic_velocity, one fixed 1/60 s tick for one
collision point: diff = new_pos - previous_pos; previous_pos = new_pos;
decaying_vel = (decaying_vel + diff) * 0.7. -/
def update_collider_historic_velocity (hv : HistoricVelocity) (new_pos : Vec3) :
    HistoricVelocity :=
  let diff := Vec3.sub new_pos hv.previous_pos
  ⟨new_pos, Vec3.smul (Vec3.add hv.decaying_vel diff) 0.7⟩

/-- The velocity after the gravity line of physics:
velocity.0.y -= time.delta_seconds() * 2.0. -/
def gravityVel (dt : ℝ) (b : Ball) : Vec3 :=
  ⟨b.velocity.x, b.velocity.y - dt * 2, b.velocity.z⟩

/-- The tentative new translation of physics:
transform.translation + velocity.0 * time.delta_seconds(). -/
def tentative (dt : ℝ) (b : Ball) : Vec3 :=
  Vec3.add b.translation (Vec3.smul (gravityVel dt b) dt)

/-- The snap-and-bounce-on-ground block of physics: if the tentative y is
below the ball size, clamp y to the size, negate the vertical velocity and
scale the whole velocity by 0.7.  Returns (new translation, velocity). -/
def groundStep (dt : ℝ) (b : Ball) : Vec3 × Vec3 :=
  let v1 := gravityVel dt b
  let nt0 := tentative dt b
  if nt0.y < b.size then (⟨nt0.x, b.size, nt0.z⟩, Vec3.smul ⟨v1.x, -v1.y, v1.z⟩ 0.7)
  else (nt0, v1)

/-- The body of the bat-collision branch of physics once a collision point is
within threshold: hit_power is the length of the point's decaying velocity;
the response is -velocity * hit_power * 4.0 plus decaying_vel * 15.0 with the
y component then halved; when hit_power > 0.3 the response is additionally
scaled by 1.2 and a HitPause transition is requested (the Bool). -/
def hitResponse (v dvel : Vec3) : Vec3 × Bool :=
  let hit_power := Vec3.length dvel
  let nv0 := Vec3.smul (Vec3.smul (Vec3.neg v) hit_power) 4
  let nv1 := Vec3.add nv0 (Vec3.smul dvel 15)
  let nv2 : Vec3 := ⟨nv1.x, nv1.y * 0.5, nv1.z⟩
  if hit_power > 0.3 then (Vec3.smul nv2 1.2, true) else (nv2, false)

/-- The collision-point scan of physics: walk the colliders in query order
and resolve against the first whose distance to the ball's (old) translation
is below size + 0.15; the break in the source means at most one response. -/
def batCollide (ball_pos : Vec3) (size : ℝ) (v : Vec3) :
    List Collider → Option (Vec3 × Bool)
  | [] => none
  | c :: rest =>
    if Vec3.dist ball_pos c.pos < size + 0.15 then some (hitResponse v c.decaying_vel)
    else batCollide ball_pos size v rest

/-- One physics-system step for one ball: gravity, tentative integration,
ground snap-and-bounce, then (only for a Thrown ball) the bat-collision scan
against the ball's pre-commit translation, and finally the commit of the new
translation.  Returns the updated ball and whether a transition to HitPause
was requested this step. -/
def physicsBall (dt : ℝ) (colliders : List Collider) (b : Ball) : Ball × Bool :=
  let g := groundStep dt b
  match (if b.status = BallStatus.Thrown
         then batCollide b.translation b.size g.2 colliders else none) with
  | some r => (⟨g.1, r.1, b.size, BallStatus.Hit⟩, r.2)
  | none => (⟨g.1, g.2, b.size, b.status⟩, false)

/-- The physics system over the whole ball query; the Bool collects whether
any ball requested the HitPause transition. -/
def physicsAll (dt : ℝ) (colliders : List Collider) : List Ball → List Ball × Bool
  | [] => ([], false)
  | b :: bs =>
    let r := physicsBall dt colliders b
    let rs := physicsAll dt colliders bs
    (r.1 :: rs.1, r.2 || rs.2)

/-- The ball spawned by throw_ball: fixed translation (-2.5, 0.5, -2.5),
fixed velocity (5.03, 1.82, 5.0), radius 0.05, and the BallBundle default
status Thrown. -/
def spawnBall : Ball :=
  ⟨⟨-2.5, 0.5, -2.5⟩, ⟨5.03, 1.82, 5⟩, 0.05, BallStatus.Thrown⟩

/-- The bat's Transform components that update_bat_transform touches. -/
structure BatT where
  translation : Vec3
  rotation : Quat

/-- update_bat_transform: resolve the cursor position (falling back to the
last known one), derive the virtual-joystick aim, the target height and
target rotation, and blend both the y translation and (componentwise) the
rotation toward the targets with weight n = dt * 40.  Also returns the
updated LastMousePosition resource. -/
def update_bat_transform (dt width height : ℝ) (cursor : Option (ℝ × ℝ))
    (lastMouse : ℝ × ℝ) (bat : BatT) : BatT × (ℝ × ℝ) :=
  let cp := cursor.getD lastMouse
  let aim_x := cp.1 / width - 0.5
  let aim_y := cp.2 / height - 0.5
  let new_y := aim_y - 0.2
  let new_rotation :=
    (Quat.fromEulerXYZ (-0.6) 0.1 (-0.7)).mul
      (Quat.fromEulerXYZ 0 0 (-aim_x * 2.2 + 0.5))
  let n := dt * 40
  (⟨⟨bat.translation.x, bat.translation.y * (1 - n) + new_y * n, bat.translation.z⟩,
    Quat.add (Quat.scale bat.rotation (1 - n)) (Quat.scale new_rotation n)⟩, cp)

/-- The generic low-pass blend the source applies:
new_value = old_value * (1 - n) + target_value * n. -/
def smooth (n old target : ℝ) : ℝ := old * (1 - n) + target * n

/-- Modelled from the spec's words, for comparison with the code: the
claimed clamped filter old * (1 - n) + target * n with
n = min(frame_delta_seconds * 40, 1). -/
def smoothSpecClamped (dt old target : ℝ) : ℝ :=
  old * (1 - min (dt * 40) 1) + target * min (dt * 40) 1

/-- The per-frame external inputs of one scheduler frame: the frame delta,
whether the 1 s spawn fixed timestep fires, whether the 1/60 s swing-tracker
fixed timestep fires, the collision points' propagated world positions, the
window size and the cursor sample. -/
structure Frame where
  dt : ℝ
  spawnTick : Bool
  swingTick : Bool
  colliderPos : List Vec3
  width : ℝ
  height : ℝ
  cursor : Option (ℝ × ℝ)

/-- The mutable world state the claims are about: the app state, the
PauseTimer resource, the ball entities, the bat transform, the
LastMousePosition resource and the collision points' HistoricVelocity. -/
structure GameState where
  appState : AppState
  pauseTimer : ℝ
  balls : List Ball
  bat : BatT
  lastMouse : ℝ × ℝ
  trackers : List HistoricVelocity

/-- The collider data physics reads this frame: world positions zipped with
the trackers' decaying velocities, in spawn/index order. -/
def frameColliders (f : Frame) (trackers : List HistoricVelocity) : List Collider :=
  List.zipWith (fun p h => ⟨p, h.decaying_vel⟩) f.colliderPos trackers

/-- The swing trackers' contribution to a frame: the 1/60 s fixed timestep
drives update_collider_historic_velocity regardless of state. -/
def frameTrackers (f : Frame) (g : GameState) : List HistoricVelocity :=
  if f.swingTick
  then List.zipWith update_collider_historic_velocity g.trackers f.colliderPos
  else g.trackers

/-- The state-dependent mutable data that the looping state driver's rounds
act on within one frame: the app state, the PauseTimer resource, the balls,
the bat transform and the LastMousePosition resource. -/
structure RoundState where
  appState : AppState
  pauseTimer : ℝ
  balls : List Ball
  bat : BatT
  lastMouse : ℝ × ℝ

/-- The looping state driver of the Update stage (Bevy 0.8): one call runs
the current state's on_update systems once, and, if that scheduled a state
transition, processes the transition - the exit systems of the old state
(none here), the enter systems of the new state (start_pause_timer on
entering HitPause) - and loops so that the NEW state's on_update systems
also run within the same frame.  An InGame round runs update_bat_transform
and physics; a HitPause round runs update_pause_timer (camera_shake and
play_hit_sound touch no modelled state).  The collider data is fixed for
the frame (GlobalTransform propagation happens in a later stage) and the
fixed-timestep systems are outside the rounds (they run once per tick
however the state flips).  fuel bounds the in-frame loop; it is never
exhausted under frameStep's budget because every round that schedules a
HitPause entry turns at least one Thrown ball into a Hit ball, and a
HitPause round schedules at most one exit before the loop leaves it. -/
def stateRounds (f : Frame) (cs : List Collider) : ℕ → RoundState → RoundState
  | 0, r => r
  | fuel + 1, r =>
    match r.appState with
    | AppState.InGame =>
      let bl := update_bat_transform f.dt f.width f.height f.cursor r.lastMouse r.bat
      let pr := physicsAll f.dt cs r.balls
      if pr.2 then
        stateRounds f cs fuel ⟨AppState.HitPause, start_pause_timer, pr.1, bl.1, bl.2⟩
      else ⟨AppState.InGame, r.pauseTimer, pr.1, bl.1, bl.2⟩
    | AppState.HitPause =>
      let ts := update_pause_timer f.dt r.pauseTimer
      if ts.2 = AppState.InGame then
        stateRounds f cs fuel ⟨AppState.InGame, ts.1, r.balls, r.bat, r.lastMouse⟩
      else ⟨AppState.HitPause, ts.1, r.balls, r.bat, r.lastMouse⟩

/-- One scheduler frame of the app, per the registrations in main and the
Bevy 0.8 looping state driver: the swing tracker first on its own fixed
timestep regardless of state; then the state-driven rounds - on_update
systems of the frame's current state, with any scheduled transition
processed in the same frame (enter systems, then the new state's on_update
systems, looping on further transitions); finally throw_ball on its own
fixed timestep regardless of state (its with_run_criteria call replaced the
on_update(InGame) criterion of its set, and its Commands-spawned ball is
applied at the end of the stage, invisible to this frame's physics). -/
def frameStep (f : Frame) (g : GameState) : GameState :=
  let trackers1 := frameTrackers f g
  let r := stateRounds f (frameColliders f trackers1) (2 * g.balls.length + 2)
    ⟨g.appState, g.pauseTimer, g.balls, g.bat, g.lastMouse⟩
  ⟨r.appState, r.pauseTimer,
   if f.spawnTick then r.balls ++ [spawnBall] else r.balls,
   r.bat, r.lastMouse, trackers1⟩

/-- Iterated physics steps for a single ball over a list of frames, each
frame given as its delta time and collider data. -/
def runSteps : List (ℝ × List Collider) → Ball → Ball
  | [], b => b
  | fr :: rest, b => runSteps rest (physicsBall fr.1 fr.2 b).1

/-- A concrete bat pose used by the concrete scenarios below. -/
def bat0 : BatT := ⟨⟨0, 0, -1⟩, ⟨0, 0, 0, 1⟩⟩

/-- A concrete resting ball used by the concrete scenarios below. -/
def ballA : Ball := ⟨⟨0, 1, 0⟩, ⟨0, 0, 0⟩, 0.05, BallStatus.Thrown⟩

/-- A concrete frame with no cadence ticks and a 0.1 s delta, small enough
that a 0.3 s pause timer does not expire during the frame. -/
def f1 : Frame := ⟨0.1, false, false, [], 1, 1, none⟩

/-- A concrete HitPause game state holding one resting ball, with 0.3 s of
pause left. -/
def g1 : GameState := ⟨AppState.HitPause, 0.3, [ballA], bat0, (0, 0), []⟩

/-- A concrete frame whose 1 s spawn timestep fires. -/
def f2 : Frame := ⟨0.5, true, false, [], 1, 1, none⟩

/-- A concrete HitPause game state with no balls. -/
def g2 : GameState := ⟨AppState.HitPause, 0.2, [], bat0, (0, 0), []⟩

/-- A concrete Thrown ball sitting at the position of col3. -/
def ball3 : Ball := ⟨⟨0, 0.5, 0⟩, ⟨0, 0, 0⟩, 0.05, BallStatus.Thrown⟩

/-- A concrete collision point at the position of ball3 with a decaying
velocity of length 0.4. -/
def col3 : Collider := ⟨⟨0, 0.5, 0⟩, ⟨0.4, 0, 0⟩⟩

/-- The tracker state behind col3. -/
def hv3 : HistoricVelocity := ⟨⟨0, 0, 0⟩, ⟨0.4, 0, 0⟩⟩

/-- A concrete frame placing one collision point at ball3's position. -/
def f3 : Frame := ⟨0.01, false, false, [⟨0, 0.5, 0⟩], 1, 1, none⟩

/-- A concrete InGame state in which ball3 is about to be hit hard. -/
def g3 : GameState := ⟨AppState.InGame, 0, [ball3], bat0, (0, 0), [hv3]⟩

/-- The origin, used as a concrete ball position. -/
def p0 : Vec3 := ⟨0, 0, 0⟩

/-- A collision point at distance 1 from p0 (out of range). -/
def colFar : Collider := ⟨⟨1, 0, 0⟩, ⟨9, 9, 9⟩⟩

/-- A collision point at p0 itself (in range). -/
def colNear : Collider := ⟨⟨0, 0, 0⟩, ⟨0.2, 0, 0⟩⟩

/-- Another collision point at p0 (also in range, but later in the list). -/
def colOther : Collider := ⟨⟨0, 0, 0⟩, ⟨0.9, 0, 0⟩⟩

/-- A concrete ball resting exactly on the ground and moving down. -/
def b6 : Ball := ⟨⟨0, 0.05, 0⟩, ⟨1, -1, 0⟩, 0.05, BallStatus.Thrown⟩

/-- A concrete ball whose status is already Hit. -/
def b9 : Ball := ⟨⟨0, 1, 0⟩, ⟨0, 0, 0⟩, 0.05, BallStatus.Hit⟩

/-! Helper lemmas shared by the claim theorems below. -/

lemma dist_self_eq_zero (p : Vec3) : Vec3.dist p p = 0 := by
  simp [Vec3.dist, Vec3.sub, Vec3.length]

lemma dist_unit_x : Vec3.dist ⟨0, 0, 0⟩ ⟨1, 0, 0⟩ = 1 := by
  simp only [Vec3.dist, Vec3.sub, Vec3.length]
  norm_num [Real.sqrt_one]

lemma length_mk_x (a : ℝ) (h : 0 ≤ a) : Vec3.length ⟨a, 0, 0⟩ = a := by
  simp only [Vec3.length]
  rw [show a * a + 0 * 0 + 0 * 0 = a ^ 2 by ring]
  exact Real.sqrt_sq h

lemma batCollide_first_hit (p : Vec3) (sz : ℝ) (v : Vec3) (c : Collider)
    (cs1 cs2 : List Collider)
    (hmiss : ∀ c' ∈ cs1, ¬ Vec3.dist p c'.pos < sz + 0.15)
    (hhit : Vec3.dist p c.pos < sz + 0.15) :
    batCollide p sz v (cs1 ++ c :: cs2) = some (hitResponse v c.decaying_vel) := by
  induction cs1 with
  | nil => simp [batCollide, hhit]
  | cons a as ih =>
    have ha : ¬ Vec3.dist p a.pos < sz + 0.15 := hmiss a (by simp)
    simp only [List.cons_append, batCollide, if_neg ha]
    exact ih fun c' hc' => hmiss c' (by simp [hc'])

lemma hitResponse_snd_iff (v dvel : Vec3) :
    (hitResponse v dvel).2 = true ↔ Vec3.length dvel > 0.3 := by
  unfold hitResponse
  by_cases h : Vec3.length dvel > 0.3
  · simp [h]
  · simp [h]

lemma physicsBall_thrown_hit (dt : ℝ) (cs1 cs2 : List Collider) (c : Collider)
    (b : Ball) (hst : b.status = BallStatus.Thrown)
    (hmiss : ∀ c' ∈ cs1, ¬ Vec3.dist b.translation c'.pos < b.size + 0.15)
    (hhit : Vec3.dist b.translation c.pos < b.size + 0.15) :
    physicsBall dt (cs1 ++ c :: cs2) b =
      (⟨(groundStep dt b).1, (hitResponse (groundStep dt b).2 c.decaying_vel).1,
        b.size, BallStatus.Hit⟩,
       (hitResponse (groundStep dt b).2 c.decaying_vel).2) := by
  simp only [physicsBall, if_pos hst,
    batCollide_first_hit b.translation b.size (groundStep dt b).2 c cs1 cs2 hmiss hhit]

lemma physicsBall_not_thrown (dt : ℝ) (cs : List Collider) (b : Ball)
    (h : b.status = BallStatus.Hit) :
    physicsBall dt cs b =
      (⟨(groundStep dt b).1, (groundStep dt b).2, b.size, b.status⟩, false) := by
  have hn : ¬ b.status = BallStatus.Thrown := by simp [h]
  simp only [physicsBall, if_neg hn]

lemma physicsBall_no_colliders (dt : ℝ) (b : Ball) :
    physicsBall dt [] b =
      (⟨(groundStep dt b).1, (groundStep dt b).2, b.size, b.status⟩, false) := by
  cases hst : b.status
  · simp [physicsBall, hst, batCollide]
  · simp [physicsBall, hst]

lemma physicsBall_shape (dt : ℝ) (cs : List Collider) (b : Ball) :
    (physicsBall dt cs b).1.translation = (groundStep dt b).1 ∧
    (physicsBall dt cs b).1.size = b.size := by
  by_cases hst : b.status = BallStatus.Thrown
  · rcases hbc : batCollide b.translation b.size (groundStep dt b).2 cs with _ | r
    · constructor <;> simp [physicsBall, hst, hbc]
    · constructor <;> simp [physicsBall, hst, hbc]
  · constructor <;> simp [physicsBall, hst]

lemma physicsAll_length (dt : ℝ) (cs : List Collider) :
    ∀ bs : List Ball, (physicsAll dt cs bs).1.length = bs.length := by
  intro bs
  induction bs with
  | nil => simp [physicsAll]
  | cons b rest ih => simp [physicsAll, ih]

lemma groundStep_fst_y (dt : ℝ) (b : Ball) :
    (groundStep dt b).1.y = max b.size (tentative dt b).y := by
  by_cases h : (tentative dt b).y < b.size
  · simp only [groundStep, if_pos h]
    exact (max_eq_left h.le).symm
  · simp only [groundStep, if_neg h]
    exact (max_eq_right (not_lt.mp h)).symm

lemma physicsBall_hit_status (dt : ℝ) (cs : List Collider) (b : Ball)
    (h : b.status = BallStatus.Hit) :
    (physicsBall dt cs b).1.status = BallStatus.Hit := by
  rw [physicsBall_not_thrown dt cs b h]
  exact h

lemma runSteps_hit (frames : List (ℝ × List Collider)) :
    ∀ b : Ball, b.status = BallStatus.Hit →
      (runSteps frames b).status = BallStatus.Hit := by
  induction frames with
  | nil => intro b h; exact h
  | cons fr rest ih =>
    intro b h
    exact ih _ (physicsBall_hit_status fr.1 fr.2 b h)

/-- Claim C7: the swing tracker's fixed-step update stores the new position
as previous_pos and sets decaying_vel to (decaying_vel + delta) * 0.7 with
delta = new_position - previous_position; hence from the zero state a
one-tick jump by D yields decaying velocity D * 0.7, and a further tick
without movement yields D * 0.49. -/
theorem C7_swing_tracker :
    (∀ (hv : HistoricVelocity) (p : Vec3),
      (update_collider_historic_velocity hv p).previous_pos = p ∧
      (update_collider_historic_velocity hv p).decaying_vel =
        Vec3.smul (Vec3.add hv.decaying_vel (Vec3.sub p hv.previous_pos)) 0.7) ∧
    (∀ D : Vec3,
      (update_collider_historic_velocity ⟨⟨0, 0, 0⟩, ⟨0, 0, 0⟩⟩ D).decaying_vel =
        Vec3.smul D 0.7 ∧
      (update_collider_historic_velocity
        (update_collider_historic_velocity ⟨⟨0, 0, 0⟩, ⟨0, 0, 0⟩⟩ D) D).decaying_vel =
        Vec3.smul D 0.49) := by
  refine ⟨fun hv p => ⟨rfl, rfl⟩, fun D => ⟨?_, ?_⟩⟩
  · ext <;>
      simp [update_collider_historic_velocity, Vec3.smul, Vec3.add, Vec3.sub]
  · ext <;>
      simp [update_collider_historic_velocity, Vec3.smul, Vec3.add, Vec3.sub] <;>
      ring

/-- Claim C10: one physics step never commits a ball below the ground plane:
the radius is unchanged, the committed y is the max of the radius and the
tentative integrated y (so a tentative y below the radius is clamped to
exactly the radius), and in particular the committed y is at least the
radius. -/
theorem C10_never_below_ground (dt : ℝ) (cs : List Collider) (b : Ball) :
    (physicsBall dt cs b).1.size = b.size ∧
    (physicsBall dt cs b).1.translation.y =
      max b.size (b.translation.y + (b.velocity.y - dt * 2) * dt) ∧
    b.size ≤ (physicsBall dt cs b).1.translation.y := by
  obtain ⟨htr, hsz⟩ := physicsBall_shape dt cs b
  refine ⟨hsz, ?_, ?_⟩
  · rw [htr, groundStep_fst_y]
    rfl
  · rw [htr, groundStep_fst_y]
    exact le_max_left _ _

/-- Claim C9: a ball whose status is Hit never re-enters the bat-collision
logic: one physics step keeps the status Hit, produces exactly the result of
a collider-free step (so its velocity is never again modified by a bat
collision response), requests no pause, and any sequence of further steps
keeps the status Hit. -/
theorem C9_hit_latch (dt : ℝ) (cs : List Collider) (b : Ball)
    (hb : b.status = BallStatus.Hit) (frames : List (ℝ × List Collider)) :
    (physicsBall dt cs b).1.status = BallStatus.Hit ∧
    physicsBall dt cs b = physicsBall dt [] b ∧
    (physicsBall dt cs b).2 = false ∧
    (runSteps frames b).status = BallStatus.Hit := by
  refine ⟨physicsBall_hit_status dt cs b hb, ?_, ?_, runSteps_hit frames b hb⟩
  · rw [physicsBall_not_thrown dt cs b hb, physicsBall_no_colliders dt b]
  · rw [physicsBall_not_thrown dt cs b hb]

lemma stateRounds_hitpause_stay (f : Frame) (cs : List Collider) (fuel : ℕ)
    (r : RoundState) (hs : r.appState = AppState.HitPause)
    (ht : ¬ r.pauseTimer - f.dt < 0) :
    stateRounds f cs (fuel + 1) r =
      ⟨AppState.HitPause, r.pauseTimer - f.dt, r.balls, r.bat, r.lastMouse⟩ := by
  have h2 : (update_pause_timer f.dt r.pauseTimer).2 = AppState.HitPause := by
    simp [update_pause_timer, ht]
  simp only [stateRounds, hs]
  rw [if_neg (by rw [h2]; decide)]
  rfl

lemma stateRounds_ingame_pause (f : Frame) (cs : List Collider) (fuel : ℕ)
    (r : RoundState) (hs : r.appState = AppState.InGame)
    (hp : (physicsAll f.dt cs r.balls).2 = true) :
    stateRounds f cs (fuel + 1) r =
      stateRounds f cs fuel
        ⟨AppState.HitPause, start_pause_timer, (physicsAll f.dt cs r.balls).1,
         (update_bat_transform f.dt f.width f.height f.cursor r.lastMouse r.bat).1,
         (update_bat_transform f.dt f.width f.height f.cursor r.lastMouse r.bat).2⟩ := by
  simp only [stateRounds, hs]
  rw [if_pos hp]

lemma stateRounds_balls_length (f : Frame) (cs : List Collider) :
    ∀ (fuel : ℕ) (r : RoundState),
      (stateRounds f cs fuel r).balls.length = r.balls.length := by
  intro fuel
  induction fuel with
  | zero => intro r; rfl
  | succ n ih =>
    intro r
    cases hs : r.appState
    · by_cases hp : (physicsAll f.dt cs r.balls).2 = true
      · simp [stateRounds, hs, hp, ih, physicsAll_length]
      · simp [stateRounds, hs, hp, physicsAll_length]
    · by_cases hti : (update_pause_timer f.dt r.pauseTimer).2 = AppState.InGame
      · simp [stateRounds, hs, hti, ih]
      · simp [stateRounds, hs, hti]

/-- Counterexample to C1 as stated: a concrete frame that is in the Impact
(HitPause) state throughout - it starts there and its pause timer does not
expire mid-frame - leaves the balls exactly as they were, although the
physics update, had it executed as in the Active state, would have changed
them (gravity alone changes a resting ball's velocity). -/
theorem C1_counterexample :
    g1.appState = AppState.HitPause ∧
    (frameStep f1 g1).appState = AppState.HitPause ∧
    (frameStep f1 g1).balls = g1.balls ∧
    (physicsAll f1.dt (frameColliders f1 (frameTrackers f1 g1)) g1.balls).1 ≠
      g1.balls := by
  have hr : stateRounds f1 (frameColliders f1 (frameTrackers f1 g1))
      (2 * g1.balls.length + 2)
      ⟨g1.appState, g1.pauseTimer, g1.balls, g1.bat, g1.lastMouse⟩ =
      ⟨AppState.HitPause, g1.pauseTimer - f1.dt, g1.balls, g1.bat, g1.lastMouse⟩ := by
    rw [show 2 * g1.balls.length + 2 = (2 * g1.balls.length + 1) + 1 from rfl]
    exact stateRounds_hitpause_stay f1 (frameColliders f1 (frameTrackers f1 g1))
      (2 * g1.balls.length + 1)
      ⟨g1.appState, g1.pauseTimer, g1.balls, g1.bat, g1.lastMouse⟩ rfl
      (by norm_num [g1, f1])
  refine ⟨rfl, ?_, ?_, ?_⟩
  · simp only [frameStep]
    rw [hr]
  · simp only [frameStep]
    rw [hr]
    simp [f1]
  · have hR : (physicsAll f1.dt (frameColliders f1 (frameTrackers f1 g1)) g1.balls).1 =
        [⟨⟨0, 0.98, 0⟩, ⟨0, -0.2, 0⟩, 0.05, BallStatus.Thrown⟩] := by
      norm_num [physicsAll, physicsBall, groundStep, gravityVel, tentative,
        frameColliders, frameTrackers, f1, g1, ballA, batCollide, Vec3.add, Vec3.smul]
    rw [hR]
    intro hcontra
    rw [g1] at hcontra
    norm_num [ballA, Ball.mk.injEq, Vec3.mk.injEq] at hcontra

/-- Claim C1 amended: entering Impact (HitPause) DOES stop the ball physics
and the bat transform update - both are registered under on_update(InGame) -
so in every frame that is in HitPause throughout (it starts there and its
pause timer does not expire mid-frame), neither system runs: the bat and
last mouse position are unchanged, the only change to the ball list is the
state-independent spawner append, the timer just decrements, and only the
state-independent swing tracker updates its decaying velocities.  (Physics
and bat control touch the world during an Impact-starting frame only after
a mid-frame timer expiry has already transitioned the state back to
Active.) -/
theorem C1_impact_gating (f : Frame) (g : GameState)
    (h : g.appState = AppState.HitPause) (ht : ¬ g.pauseTimer - f.dt < 0) :
    (frameStep f g).appState = AppState.HitPause ∧
    (frameStep f g).pauseTimer = g.pauseTimer - f.dt ∧
    (frameStep f g).bat = g.bat ∧
    (frameStep f g).lastMouse = g.lastMouse ∧
    (frameStep f g).balls =
      (if f.spawnTick then g.balls ++ [spawnBall] else g.balls) ∧
    (frameStep f g).trackers =
      (if f.swingTick
       then List.zipWith update_collider_historic_velocity g.trackers f.colliderPos
       else g.trackers) := by
  have hr : stateRounds f (frameColliders f (frameTrackers f g))
      (2 * g.balls.length + 2)
      ⟨g.appState, g.pauseTimer, g.balls, g.bat, g.lastMouse⟩ =
      ⟨AppState.HitPause, g.pauseTimer - f.dt, g.balls, g.bat, g.lastMouse⟩ := by
    rw [show 2 * g.balls.length + 2 = (2 * g.balls.length + 1) + 1 from rfl]
    exact stateRounds_hitpause_stay f (frameColliders f (frameTrackers f g))
      (2 * g.balls.length + 1)
      ⟨g.appState, g.pauseTimer, g.balls, g.bat, g.lastMouse⟩ h ht
  refine ⟨?_, ?_, ?_, ?_, ?_, ?_⟩
  · simp only [frameStep]
    rw [hr]
  · simp only [frameStep]
    rw [hr]
  · simp only [frameStep]
    rw [hr]
  · simp only [frameStep]
    rw [hr]
  · simp only [frameStep]
    rw [hr]
  · simp only [frameStep, frameTrackers]

/-- Witness for C1's amended theorem at a concrete non-expiring Impact
frame. -/
theorem C1_impact_gating_witness :
    g1.appState = AppState.HitPause ∧ ¬ g1.pauseTimer - f1.dt < 0 ∧
    (frameStep f1 g1).appState = AppState.HitPause ∧
    (frameStep f1 g1).bat = g1.bat ∧
    (frameStep f1 g1).balls = g1.balls := by
  have ht : ¬ g1.pauseTimer - f1.dt < 0 := by norm_num [g1, f1]
  have h := C1_impact_gating f1 g1 rfl ht
  refine ⟨rfl, ht, h.1, h.2.2.1, ?_⟩
  have h5 := h.2.2.2.2.1
  simpa [f1] using h5

/-- Claim C2: the spawner is driven by its own 1 s fixed-timestep cadence
and is not gated by the pause state machine: whenever the cadence fires,
exactly one ball is appended, with the fixed spawn translation, velocity,
radius and status Thrown, for any state (InGame or HitPause) of the frame;
without the cadence the ball count is unchanged. -/
theorem C2_spawner (f : Frame) (g : GameState) :
    (frameStep f g).balls.length = g.balls.length + (if f.spawnTick then 1 else 0) ∧
    (f.spawnTick = true → (frameStep f g).balls.getLast? = some spawnBall) ∧
    spawnBall.translation = ⟨-2.5, 0.5, -2.5⟩ ∧
    spawnBall.velocity = ⟨5.03, 1.82, 5⟩ ∧
    spawnBall.size = 0.05 ∧ spawnBall.status = BallStatus.Thrown := by
  have hlen : ∀ (fuel : ℕ) (r : RoundState),
      (stateRounds f (frameColliders f (frameTrackers f g)) fuel r).balls.length =
        r.balls.length :=
    stateRounds_balls_length f (frameColliders f (frameTrackers f g))
  refine ⟨?_, ?_, rfl, rfl, rfl, rfl⟩
  · by_cases hs : f.spawnTick = true
    · simp [frameStep, hs, hlen]
    · simp [frameStep, hs, hlen]
  · intro hs
    simp only [frameStep, hs, if_pos]
    exact List.getLast?_concat _

/-- Witness for C2 at a concrete HitPause frame whose spawn cadence fires:
the ball is appended even though the state is Impact. -/
theorem C2_spawner_witness :
    f2.spawnTick = true ∧ g2.appState = AppState.HitPause ∧
    (frameStep f2 g2).balls.getLast? = some spawnBall ∧
    (frameStep f2 g2).balls.length = g2.balls.length + 1 := by
  have h := C2_spawner f2 g2
  refine ⟨rfl, rfl, h.2.1 rfl, ?_⟩
  have h1 := h.1
  simpa [f2] using h1

/-- Claim C8: the pause timer is set to PAUSE_TIME = 0.7 on every entry into
HitPause (Impact); each HitPause update decrements it by the frame delta -
including the update that the looping state driver runs right after
start_pause_timer within the entry frame itself, so an entry frame whose
fresh PAUSE_TIME does not immediately expire ends in HitPause with timer
PAUSE_TIME - dt; the state goes back to InGame (Active) exactly when the
decremented timer is negative; and the concrete scenario timer 0.7 with
dt 0.8 yields -0.1 and a transition back to InGame. -/
theorem C8_pause_timer (dt t : ℝ) (f : Frame) (g : GameState) :
    start_pause_timer = PAUSE_TIME ∧ PAUSE_TIME = 0.7 ∧
    (update_pause_timer dt t).1 = t - dt ∧
    ((update_pause_timer dt t).2 = AppState.InGame ↔ t - dt < 0) ∧
    (g.appState = AppState.InGame →
      (physicsAll f.dt (frameColliders f (frameTrackers f g)) g.balls).2 = true →
      ¬ PAUSE_TIME - f.dt < 0 →
      (frameStep f g).appState = AppState.HitPause ∧
      (frameStep f g).pauseTimer = PAUSE_TIME - f.dt) ∧
    update_pause_timer 0.8 0.7 = (-0.1, AppState.InGame) := by
  refine ⟨rfl, rfl, rfl, ?_, ?_, ?_⟩
  · unfold update_pause_timer
    by_cases h : t - dt < 0
    · simp [h]
    · simp [h]
  · intro hg hreq hdt
    have hr : stateRounds f (frameColliders f (frameTrackers f g))
        (2 * g.balls.length + 2)
        ⟨g.appState, g.pauseTimer, g.balls, g.bat, g.lastMouse⟩ =
        ⟨AppState.HitPause, start_pause_timer - f.dt,
         (physicsAll f.dt (frameColliders f (frameTrackers f g)) g.balls).1,
         (update_bat_transform f.dt f.width f.height f.cursor g.lastMouse g.bat).1,
         (update_bat_transform f.dt f.width f.height f.cursor g.lastMouse g.bat).2⟩ := by
      rw [show 2 * g.balls.length + 2 = (2 * g.balls.length + 1) + 1 from rfl,
        stateRounds_ingame_pause f (frameColliders f (frameTrackers f g))
          (2 * g.balls.length + 1)
          ⟨g.appState, g.pauseTimer, g.balls, g.bat, g.lastMouse⟩ hg hreq,
        stateRounds_hitpause_stay f (frameColliders f (frameTrackers f g))
          (2 * g.balls.length)
          ⟨AppState.HitPause, start_pause_timer,
           (physicsAll f.dt (frameColliders f (frameTrackers f g)) g.balls).1,
           (update_bat_transform f.dt f.width f.height f.cursor g.lastMouse g.bat).1,
           (update_bat_transform f.dt f.width f.height f.cursor g.lastMouse g.bat).2⟩
          rfl hdt]
    constructor
    · simp only [frameStep]
      rw [hr]
    · simp only [frameStep]
      rw [hr]
      show start_pause_timer - f.dt = PAUSE_TIME - f.dt
      rfl
  · unfold update_pause_timer
    norm_num [Prod.ext_iff]

/-- Witness for C9 at a concrete Hit ball, collider list and frame list. -/
theorem C9_hit_latch_witness :
    b9.status = BallStatus.Hit ∧
    (physicsBall 1 [col3] b9).1.status = BallStatus.Hit ∧
    physicsBall 1 [col3] b9 = physicsBall 1 [] b9 ∧
    (runSteps [(1, [col3]), (1, [])] b9).status = BallStatus.Hit := by
  have h := C9_hit_latch 1 [col3] b9 rfl [(1, [col3]), (1, [])]
  exact ⟨rfl, h.1, h.2.1, h.2.2.2⟩

lemma dist_ball3_col3 : Vec3.dist ball3.translation col3.pos < ball3.size + 0.15 := by
  have h0 : Vec3.dist ball3.translation col3.pos = 0 := dist_self_eq_zero ⟨0, 0.5, 0⟩
  rw [h0]
  norm_num [ball3]

lemma length_col3 : Vec3.length col3.decaying_vel = 0.4 :=
  length_mk_x 0.4 (by norm_num)

lemma physicsAll_g3_snd :
    (physicsAll f3.dt (frameColliders f3 (frameTrackers f3 g3)) g3.balls).2 = true := by
  have hcol : frameColliders f3 (frameTrackers f3 g3) = [col3] := by
    simp [frameColliders, frameTrackers, f3, g3, hv3, col3]
  have hpb := physicsBall_thrown_hit 0.01 [] [] col3 ball3 rfl (by simp) dist_ball3_col3
  simp only [List.nil_append] at hpb
  have hsnd : (physicsBall 0.01 [col3] ball3).2 = true := by
    rw [hpb]
    exact (hitResponse_snd_iff _ _).mpr (by rw [length_col3]; norm_num)
  rw [hcol]
  show (physicsAll 0.01 [col3] [ball3]).2 = true
  simp [physicsAll, hsnd]

/-- Witness for C8 at a concrete frame in which a hard hit makes physics
schedule the Impact transition: the frame ends in HitPause with the timer
at PAUSE_TIME minus this frame's delta, the entry-frame pause update having
run right after start_pause_timer. -/
theorem C8_pause_timer_witness :
    g3.appState = AppState.InGame ∧
    (physicsAll f3.dt (frameColliders f3 (frameTrackers f3 g3)) g3.balls).2 = true ∧
    ¬ PAUSE_TIME - f3.dt < 0 ∧
    (frameStep f3 g3).appState = AppState.HitPause ∧
    (frameStep f3 g3).pauseTimer = PAUSE_TIME - f3.dt := by
  have hdt : ¬ PAUSE_TIME - f3.dt < 0 := by norm_num [PAUSE_TIME, f3]
  have h := (C8_pause_timer 0 0 f3 g3).2.2.2.2.1 rfl physicsAll_g3_snd hdt
  exact ⟨rfl, physicsAll_g3_snd, hdt, h.1, h.2⟩

/-- Claim C3: for a Thrown ball whose first in-range collision point (in
query order) is c, the physics step sets status Hit and assigns velocity
(-old_velocity * hit_power * 4) + (decaying_vel * 15) with the y component
halved, where old_velocity is the ball's velocity at the collision test
(after the gravity and possible ground-bounce updates earlier in the same
step, i.e. (groundStep dt b).2) and hit_power is the length of c's decaying
velocity; the response is additionally scaled by 1.2 and an Impact
transition requested exactly when hit_power > 0.3, and at hit_power = 0.3
no transition is requested (the state stays Active). -/
theorem C3_hit_response (dt : ℝ) (cs1 cs2 : List Collider) (c : Collider)
    (b : Ball) (hst : b.status = BallStatus.Thrown)
    (hmiss : ∀ c' ∈ cs1, ¬ Vec3.dist b.translation c'.pos < b.size + 0.15)
    (hhit : Vec3.dist b.translation c.pos < b.size + 0.15) :
    (physicsBall dt (cs1 ++ c :: cs2) b).1.status = BallStatus.Hit ∧
    (physicsBall dt (cs1 ++ c :: cs2) b).1.velocity.x =
      (-(groundStep dt b).2.x * Vec3.length c.decaying_vel * 4 +
        c.decaying_vel.x * 15) *
        (if Vec3.length c.decaying_vel > 0.3 then 1.2 else 1) ∧
    (physicsBall dt (cs1 ++ c :: cs2) b).1.velocity.y =
      (-(groundStep dt b).2.y * Vec3.length c.decaying_vel * 4 +
        c.decaying_vel.y * 15) * 0.5 *
        (if Vec3.length c.decaying_vel > 0.3 then 1.2 else 1) ∧
    (physicsBall dt (cs1 ++ c :: cs2) b).1.velocity.z =
      (-(groundStep dt b).2.z * Vec3.length c.decaying_vel * 4 +
        c.decaying_vel.z * 15) *
        (if Vec3.length c.decaying_vel > 0.3 then 1.2 else 1) ∧
    ((physicsBall dt (cs1 ++ c :: cs2) b).2 = true ↔
      Vec3.length c.decaying_vel > 0.3) ∧
    (Vec3.length c.decaying_vel = 0.3 →
      (physicsBall dt (cs1 ++ c :: cs2) b).2 = false) := by
  have hpb := physicsBall_thrown_hit dt cs1 cs2 c b hst hmiss hhit
  rw [hpb]
  refine ⟨rfl, ?_, ?_, ?_, hitResponse_snd_iff _ _, ?_⟩
  · show (hitResponse (groundStep dt b).2 c.decaying_vel).1.x = _
    by_cases hhp : Vec3.length c.decaying_vel > 0.3
    · rw [if_pos hhp]
      simp only [hitResponse, if_pos hhp, Vec3.smul, Vec3.add, Vec3.neg]
    · rw [if_neg hhp]
      simp only [hitResponse, if_neg hhp, Vec3.smul, Vec3.add, Vec3.neg]
      ring
  · show (hitResponse (groundStep dt b).2 c.decaying_vel).1.y = _
    by_cases hhp : Vec3.length c.decaying_vel > 0.3
    · rw [if_pos hhp]
      simp only [hitResponse, if_pos hhp, Vec3.smul, Vec3.add, Vec3.neg]
    · rw [if_neg hhp]
      simp only [hitResponse, if_neg hhp, Vec3.smul, Vec3.add, Vec3.neg]
      ring
  · show (hitResponse (groundStep dt b).2 c.decaying_vel).1.z = _
    by_cases hhp : Vec3.length c.decaying_vel > 0.3
    · rw [if_pos hhp]
      simp only [hitResponse, if_pos hhp, Vec3.smul, Vec3.add, Vec3.neg]
    · rw [if_neg hhp]
      simp only [hitResponse, if_neg hhp, Vec3.smul, Vec3.add, Vec3.neg]
      ring
  · intro h03
    show (hitResponse (groundStep dt b).2 c.decaying_vel).2 = false
    have hn : ¬ Vec3.length c.decaying_vel > 0.3 := by rw [h03]; norm_num
    simp [hitResponse, hn]

/-- Witness for C3 at a concrete Thrown ball touching a concrete collision
point whose decaying velocity has length 0.4. -/
theorem C3_hit_response_witness :
    ball3.status = BallStatus.Thrown ∧
    Vec3.dist ball3.translation col3.pos < ball3.size + 0.15 ∧
    (physicsBall 0.01 [col3] ball3).1.status = BallStatus.Hit ∧
    ((physicsBall 0.01 [col3] ball3).2 = true ↔
      Vec3.length col3.decaying_vel > 0.3) := by
  have h := C3_hit_response 0.01 [] [] col3 ball3 rfl (by simp) dist_ball3_col3
  simp only [List.nil_append] at h
  exact ⟨rfl, dist_ball3_col3, h.1, h.2.2.2.2.1⟩

/-- Claim C4: among all collision points within threshold in a frame, the
one earliest in the fixed query order (which is the BatCollider index order
0..6) resolves the collision: the scan returns exactly its response, and
the result is independent of whatever comes after it in the list (in-range
or not), so at most one collision is resolved per ball per frame. -/
theorem C4_lowest_index_wins (p : Vec3) (sz : ℝ) (v : Vec3)
    (cs1 cs2 cs2' : List Collider) (c : Collider)
    (hmiss : ∀ c' ∈ cs1, ¬ Vec3.dist p c'.pos < sz + 0.15)
    (hhit : Vec3.dist p c.pos < sz + 0.15) :
    batCollide p sz v (cs1 ++ c :: cs2) = some (hitResponse v c.decaying_vel) ∧
    batCollide p sz v (cs1 ++ c :: cs2) = batCollide p sz v (cs1 ++ c :: cs2') := by
  refine ⟨batCollide_first_hit p sz v c cs1 cs2 hmiss hhit, ?_⟩
  rw [batCollide_first_hit p sz v c cs1 cs2 hmiss hhit,
    batCollide_first_hit p sz v c cs1 cs2' hmiss hhit]

/-- Witness for C4: with an out-of-range point first and two in-range
points after it, the first in-range point wins and the trailing in-range
point is ignored. -/
theorem C4_lowest_index_wins_witness :
    (∀ c' ∈ [colFar], ¬ Vec3.dist p0 c'.pos < 0.05 + 0.15) ∧
    Vec3.dist p0 colNear.pos < 0.05 + 0.15 ∧
    batCollide p0 0.05 ⟨0, 0, 0⟩ ([colFar] ++ colNear :: [colOther]) =
      some (hitResponse ⟨0, 0, 0⟩ colNear.decaying_vel) ∧
    batCollide p0 0.05 ⟨0, 0, 0⟩ ([colFar] ++ colNear :: [colOther]) =
      batCollide p0 0.05 ⟨0, 0, 0⟩ ([colFar] ++ colNear :: []) := by
  have hmiss : ∀ c' ∈ [colFar], ¬ Vec3.dist p0 c'.pos < 0.05 + 0.15 := by
    intro c' hc'
    have hc : c' = colFar := by simpa using hc'
    subst hc
    have h1 : Vec3.dist p0 colFar.pos = 1 := dist_unit_x
    rw [h1]
    norm_num
  have hhit : Vec3.dist p0 colNear.pos < 0.05 + 0.15 := by
    have h0 : Vec3.dist p0 colNear.pos = 0 := dist_self_eq_zero ⟨0, 0, 0⟩
    rw [h0]
    norm_num
  have h := C4_lowest_index_wins p0 0.05 ⟨0, 0, 0⟩ [colFar] [colOther] [] colNear
    hmiss hhit
  exact ⟨hmiss, hhit, h.1, h.2⟩

/-- Counterexample to C5 as stated: at dt = 0.05 the smoothing weight is
dt * 40 = 2, not clamped to 1, so the computed bat height differs from the
claimed min-clamped filter's output (2 versus 1). -/
theorem C5_counterexample :
    (update_bat_transform 0.05 1 1 (some (0.5, 1.7)) (0, 0) bat0).1.translation.y ≠
      smoothSpecClamped 0.05 bat0.translation.y (1.7 / 1 - 0.5 - 0.2) := by
  norm_num [update_bat_transform, smoothSpecClamped, bat0, min_def]

/-- Claim C5 amended: the bat smoothing filter computes
new_value = old * (1 - n) + target * n with n = dt * 40 and no clamping
(the source has no min), applied to the vertical translation and
componentwise to the rotation; it agrees with the claimed min-clamped
filter exactly on frames with dt * 40 at most 1. -/
theorem C5_smoothing_unclamped (dt width height : ℝ) (cursor : Option (ℝ × ℝ))
    (lm : ℝ × ℝ) (bat : BatT) :
    (update_bat_transform dt width height cursor lm bat).1.translation.y =
      smooth (dt * 40) bat.translation.y ((cursor.getD lm).2 / height - 0.5 - 0.2) ∧
    (update_bat_transform dt width height cursor lm bat).1.rotation =
      Quat.add (Quat.scale bat.rotation (1 - dt * 40))
        (Quat.scale ((Quat.fromEulerXYZ (-0.6) 0.1 (-0.7)).mul
          (Quat.fromEulerXYZ 0 0 (-((cursor.getD lm).1 / width - 0.5) * 2.2 + 0.5)))
          (dt * 40)) ∧
    (dt * 40 ≤ 1 →
      (update_bat_transform dt width height cursor lm bat).1.translation.y =
        smoothSpecClamped dt bat.translation.y
          ((cursor.getD lm).2 / height - 0.5 - 0.2)) := by
  refine ⟨rfl, rfl, ?_⟩
  intro h
  unfold smoothSpecClamped
  rw [min_eq_left h]
  rfl

/-- Witness for C5's amended theorem at a small concrete frame delta, where
the code agrees with the clamped filter. -/
theorem C5_smoothing_unclamped_witness :
    (0.01 * 40 : ℝ) ≤ 1 ∧
    (update_bat_transform 0.01 1 1 none (0, 0) bat0).1.translation.y =
      smoothSpecClamped 0.01 bat0.translation.y
        (((none : Option (ℝ × ℝ)).getD (0, 0)).2 / 1 - 0.5 - 0.2) := by
  refine ⟨by norm_num, ?_⟩
  exact (C5_smoothing_unclamped 0.01 1 1 none (0, 0) bat0).2.2 (by norm_num)

/-- Counterexample to C6 as stated: a ball resting on the ground with
velocity (1, -1, 0) and dt = 1 bounces, but its new vertical velocity is
-(velocity.y - 2 * dt) * 0.7 = 2.1, not -(velocity.y) * 0.7 = 0.7, because
gravity is applied earlier in the same physics step. -/
theorem C6_counterexample :
    b6.translation.y = b6.size ∧ b6.velocity.y < 0 ∧
    (physicsBall 1 [] b6).1.translation.y = b6.size ∧
    (physicsBall 1 [] b6).1.velocity.y ≠ -b6.velocity.y * 0.7 := by
  have hgs : groundStep 1 b6 = (⟨1, 0.05, 0⟩, ⟨0.7, 2.1, 0⟩) := by
    norm_num [groundStep, gravityVel, tentative, b6, Vec3.add, Vec3.smul,
      Prod.ext_iff, Vec3.mk.injEq]
  rw [physicsBall_no_colliders, hgs]
  exact ⟨rfl, by norm_num [b6], rfl, by norm_num [b6]⟩

/-- Claim C6 amended: for a ball with position.y = radius and velocity.y < 0
and a positive frame delta, one collider-free physics step keeps
position.y = radius, sets velocity.y to -(velocity.y - 2 * dt) * 0.7
(gravity acts before the bounce within the same step), and scales each
horizontal velocity component by 0.7. -/
theorem C6_ground_bounce (dt : ℝ) (b : Ball)
    (h1 : b.translation.y = b.size) (h2 : b.velocity.y < 0) (h3 : 0 < dt) :
    (physicsBall dt [] b).1.translation.y = b.size ∧
    (physicsBall dt [] b).1.velocity.y = -(b.velocity.y - dt * 2) * 0.7 ∧
    (physicsBall dt [] b).1.velocity.x = b.velocity.x * 0.7 ∧
    (physicsBall dt [] b).1.velocity.z = b.velocity.z * 0.7 := by
  have hty : (tentative dt b).y < b.size := by
    show b.translation.y + (b.velocity.y - dt * 2) * dt < b.size
    rw [h1]
    have hneg : b.velocity.y - dt * 2 < 0 := by linarith
    have hprod := mul_neg_of_neg_of_pos hneg h3
    linarith
  rw [physicsBall_no_colliders]
  simp [groundStep, gravityVel, Vec3.smul, if_pos hty]

/-- Witness for C6's amended theorem at the concrete grounded ball b6. -/
theorem C6_ground_bounce_witness :
    b6.translation.y = b6.size ∧ b6.velocity.y < 0 ∧ (0 : ℝ) < 1 ∧
    (physicsBall 1 [] b6).1.translation.y = b6.size ∧
    (physicsBall 1 [] b6).1.velocity.y = -(b6.velocity.y - 1 * 2) * 0.7 := by
  have h := C6_ground_bounce 1 b6 rfl (by norm_num [b6]) (by norm_num)
  exact ⟨rfl, by norm_num [b6], by norm_num, h.1, h.2.1⟩

end LD51
